import Mathlib

/-!
Verification of the satellite-image data fetcher (`src/data_fetcher.py`).

The development shallowly embeds the four operations of
`SatelliteImageFetcher` — `download_single_image`,
`download_images_for_dataset`, `create_image_mapping` and `verify_images` —
and proves the behavioural properties stated about them.

Modelling conventions:
* The filesystem is a finite association of path strings to contents; the
  existence check `os.path.exists` is list membership on the set of
  present paths.
* The network (`requests.get`) is an oracle value of type `HttpResponse`;
  the imaging library (PIL `Image.open` / `img.save`) is an oracle record
  `ImgLib` whose operations may fail (`Option`), matching the `try/except`
  structure of the Python code.  Per the Fetcher contract, `img.save` is
  modelled as re-encode-to-JPEG followed by a file write.
* Wall-clock time is an oracle `elapsedAt : Nat -> Rat` giving the elapsed
  time observed when the progress block runs at loop index `idx`, and an
  oracle total elapsed time for the final statistics; `time.sleep` is
  modelled by counting the delays that would be performed.
* Python's raising `ZeroDivisionError` on `x / 0` is modelled by the
  batch function returning `Except.error "ZeroDivisionError"`.
* `data_df.iterrows()` is modelled as iteration over a list of property
  records whose dataframe index `idx` is the 0-based position (the default
  `RangeIndex` produced by `pd.read_csv`).
-/

namespace DataFetcher

/-- A property row of the input table: columns `id`, `lat`, `long`
(`data_fetcher.py` lines 134-136).  The identifier is kept as the string
that Python's f-string interpolation produces for it. -/
structure Property where
  id : String
  lat : Int
  long : Int
  deriving DecidableEq

/-- Suffix test on strings (the semantics of Python's `str.endswith`),
implemented over the character lists so that it evaluates by kernel
reduction. -/
def strEndsWith (s post : String) : Bool :=
  post.data.isSuffixOf s.data

/-- Model of `os.path.join(a, b)` for a relative second component:
`a + "/" + b`, except that a trailing separator on `a` (or an empty `a`)
adds no extra separator. -/
def osPathJoin (a b : String) : String :=
  if a = "" then b
  else if strEndsWith a "/" then a ++ b
  else a ++ "/" ++ b

/-- The destination path computed by the batch downloader:
`os.path.join(save_folder, f'property_{prop_id}.jpg')`
(`data_fetcher.py` line 139). -/
def downloaderDestPath (save_folder : String) (prop_id : String) : String :=
  osPathJoin save_folder ("property_" ++ prop_id ++ ".jpg")

/-- The image path computed by the mapping pass:
`os.path.join(images_folder, f'property_{x}.jpg')`
(`data_fetcher.py` lines 217-219). -/
def mappingImagePath (images_folder : String) (x : String) : String :=
  osPathJoin images_folder ("property_" ++ x ++ ".jpg")

/-- Outcome of `requests.get(api_url, timeout=10)`: a response with a
status code and body bytes, a `requests.exceptions.Timeout`, or another
`requests.exceptions.RequestException` (`data_fetcher.py` lines 67, 82-87). -/
inductive HttpResponse where
  | ok (status : Nat) (content : List Nat)
  | timeout
  | requestError
  deriving DecidableEq

/-- Oracle for the imaging library.  `decode` models
`Image.open(BytesIO(content))` (raises, i.e. `none`, on malformed bytes);
`encodeJPEG` models the JPEG re-encode at quality 95 performed by
`img.save(save_path, 'JPEG', quality=95)` (raises, i.e. `none`, on encode
failure), after which the encoded bytes are written to the file. -/
structure ImgLib (α : Type) where
  decode : List Nat → Option α
  encodeJPEG : α → Option (List Nat)

/-- An image file store: association of paths to byte contents. -/
def ImageFS : Type := List (String × List Nat)

/-- Writing an image file: overwrites any existing file at that exact path. -/
def writeImageFile (fs : ImageFS) (path : String) (bytes : List Nat) : ImageFS :=
  (path, bytes) :: fs.filter (fun e => !(e.1 == path))

/-- Embedding of `SatelliteImageFetcher.download_single_image`
(`data_fetcher.py` lines 48-90).  Every exception raised inside the `try`
block — timeout, other request errors, decode or encode failures — is
caught and turned into the result `false`; on status 200 with a
successful decode and re-encode, the JPEG bytes are written to
`save_path` and the result is `true`.  The returned pair is
(boolean result, filesystem after the call). -/
def download_single_image {α : Type} (lib : ImgLib α) (resp : HttpResponse)
    (save_path : String) (fs : ImageFS) : Bool × ImageFS :=
  match resp with
  | .ok status content =>
    if status = 200 then
      match lib.decode content with
      | none => (false, fs)
      | some img =>
        match lib.encodeJPEG img with
        | none => (false, fs)
        | some bytes => (true, writeImageFile fs save_path bytes)
    else (false, fs)
  | .timeout => (false, fs)
  | .requestError => (false, fs)

/-- C4: for every images folder and property identifier, the destination
path computed by the batch downloader (line 139) and the `image_path`
computed by the mapping pass (lines 217-219) are byte-identical strings. -/
theorem deterministic_naming_paths_equal (folder : String) (x : String) :
    downloaderDestPath folder x = mappingImagePath folder x := rfl

/-- C7: a single fetch invocation returns a boolean and never raises: it
returns `true` exactly when the HTTP status is 200 and the decode,
re-encode and write all succeed, and `false` on any non-200 status,
network timeout, transport error, or decode/encode failure.  (Totality of
the embedding reflects that the Python `try/except` chain catches every
exception raised in the body.) -/
theorem single_image_fetch_bool_result {α : Type} (lib : ImgLib α)
    (resp : HttpResponse) (save_path : String) (fs : ImageFS) :
    (download_single_image lib resp save_path fs).1 = true ↔
      ∃ content, resp = HttpResponse.ok 200 content ∧
        ∃ img, lib.decode content = some img ∧
          ∃ out, lib.encodeJPEG img = some out := by
  cases resp with
  | ok status content =>
    by_cases hs : status = 200
    · subst hs
      cases hd : lib.decode content with
      | none => simp [download_single_image, hd]
      | some img =>
        cases he : lib.encodeJPEG img with
        | none => simp [download_single_image, hd, he]
        | some out => simp [download_single_image, hd, he]
    · simp [download_single_image, hs]
  | timeout => simp [download_single_image]
  | requestError => simp [download_single_image]

/-- C6: when the decode of the response body or the JPEG re-encode fails
(malformed image bytes), the invocation reports failure and no output
file is written: the filesystem is returned unchanged, so no partial file
is left at the destination path. -/
theorem decode_encode_failure_no_file {α : Type} (lib : ImgLib α)
    (content : List Nat) (save_path : String) (fs : ImageFS)
    (h : lib.decode content = none ∨
         ∃ img, lib.decode content = some img ∧ lib.encodeJPEG img = none) :
    download_single_image lib (HttpResponse.ok 200 content) save_path fs
      = (false, fs) := by
  rcases h with hd | ⟨img, hd, he⟩
  · simp [download_single_image, hd]
  · simp [download_single_image, hd, he]

/-- A concrete imaging-library oracle whose decode always fails,
standing for a malformed response body. -/
def badDecodeLib : ImgLib Nat :=
  { decode := fun _ => none, encodeJPEG := fun _ => none }

/-- Witness for `decode_encode_failure_no_file` at a concrete input. -/
theorem decode_encode_failure_no_file_witness :
    download_single_image badDecodeLib (HttpResponse.ok 200 [7, 7, 7])
      "train/property_1.jpg" [] = (false, []) :=
  decode_encode_failure_no_file badDecodeLib [7, 7, 7]
    "train/property_1.jpg" [] (Or.inl rfl)

/-- One progress observation, as printed by the progress block
(`data_fetcher.py` lines 157-165): rows processed so far (`idx + 1`),
total rows, percentage complete, elapsed time, and estimated remaining
time `(elapsed / (idx + 1)) * (total - idx - 1)`. -/
structure ProgressObs where
  rowsProcessed : Nat
  totalRows : Nat
  percentage : ℚ
  elapsed : ℚ
  estimatedRemaining : ℚ
  deriving DecidableEq

/-- The progress observation built at loop index `idx` (0-based), given
the elapsed-time oracle. -/
def mkProgressObs (elapsedAt : Nat → ℚ) (total idx : Nat) : ProgressObs :=
  { rowsProcessed := idx + 1
    totalRows := total
    percentage := (((idx + 1 : Nat) : ℚ) / (total : ℚ)) * 100
    elapsed := elapsedAt idx
    estimatedRemaining :=
      (elapsedAt idx / ((idx + 1 : Nat) : ℚ)) * ((total - idx - 1 : Nat) : ℚ) }

/-- The mutable state of the download loop (`data_fetcher.py` lines
118-168): the set of file paths present in the output folder, the three
counters, the failed-id list, and — to make the side effects provable —
the number of Fetcher calls made, the number of `time.sleep(delay)`
pauses performed, the progress observations emitted, and the dataframe
index `idx` of the next row. -/
structure LoopState where
  fs : List String
  successful : Nat
  failed : Nat
  failed_ids : List String
  fetchCalls : Nat
  delays : Nat
  progress : List ProgressObs
  idx : Nat
  deriving DecidableEq

/-- The loop state on entry: counters zero, no failures recorded, and the
files already present in the output folder. -/
def initState (fs0 : List String) : LoopState :=
  { fs := fs0, successful := 0, failed := 0, failed_ids := []
    fetchCalls := 0, delays := 0, progress := [], idx := 0 }

/-- One iteration of the download loop (`data_fetcher.py` lines 133-168).
If the destination file already exists the row is counted successful and
the iteration `continue`s — skipping the Fetcher call, the progress block
and the sleep.  Otherwise the Fetcher is called (`fetch p` is the boolean
it returns; on `true` the file now exists at the destination path), the
counters are updated, the progress block runs when `(idx + 1) %
progress_interval == 0`, and the inter-request delay is performed. -/
def processRow (fetch : Property → Bool) (elapsedAt : Nat → ℚ) (folder : String)
    (total interval : Nat) (s : LoopState) (p : Property) : LoopState :=
  let path := downloaderDestPath folder p.id
  if s.fs.contains path then
    { s with successful := s.successful + 1, idx := s.idx + 1 }
  else
    let s1 :=
      if fetch p then
        { s with successful := s.successful + 1, fs := path :: s.fs
                 fetchCalls := s.fetchCalls + 1 }
      else
        { s with failed := s.failed + 1, failed_ids := s.failed_ids ++ [p.id]
                 fetchCalls := s.fetchCalls + 1 }
    let s2 :=
      if (s.idx + 1) % interval = 0 then
        { s1 with progress := s1.progress ++ [mkProgressObs elapsedAt total s.idx] }
      else s1
    { s2 with delays := s2.delays + 1, idx := s2.idx + 1 }

/-- The `for idx, row in data_df.iterrows()` loop, iterating the rows in
order and threading the loop state. -/
def runLoopAux (fetch : Property → Bool) (elapsedAt : Nat → ℚ) (folder : String)
    (total interval : Nat) : LoopState → List Property → LoopState
  | s, [] => s
  | s, p :: rest =>
      runLoopAux fetch elapsedAt folder total interval
        (processRow fetch elapsedAt folder total interval s p) rest

/-- The loop state after the whole loop has run over `props`, starting
from an output folder containing the files `fs0`. -/
def finalLoopState (fetch : Property → Bool) (elapsedAt : Nat → ℚ)
    (folder : String) (interval : Nat) (fs0 : List String)
    (props : List Property) : LoopState :=
  runLoopAux fetch elapsedAt folder props.length interval (initState fs0) props

/-- The statistics dictionary returned by `download_images_for_dataset`
(`data_fetcher.py` lines 186-193). -/
structure RunStats where
  total : Nat
  successful : Nat
  failed : Nat
  failed_ids : List String
  total_time : ℚ
  success_rate : ℚ
  deriving DecidableEq

/-- The statistics built after the loop, with
`success_rate = (successful / total) * 100` (`data_fetcher.py` line 172). -/
def runStatsOf (total_elapsed_time : ℚ) (props : List Property)
    (final : LoopState) : RunStats :=
  { total := props.length
    successful := final.successful
    failed := final.failed
    failed_ids := final.failed_ids
    total_time := total_elapsed_time
    success_rate := ((final.successful : ℚ) / ((props.length : Nat) : ℚ)) * 100 }

/-- Embedding of `SatelliteImageFetcher.download_images_for_dataset`
(`data_fetcher.py` lines 93-193).  After the loop, line 172 computes
`success_percentage = (successful_count / total_properties) * 100`;
in Python this raises `ZeroDivisionError` when the dataset is empty,
modelled here as `Except.error "ZeroDivisionError"`.  Otherwise the
statistics dictionary and the final folder/loop state are returned. -/
def download_images_for_dataset (fetch : Property → Bool) (elapsedAt : Nat → ℚ)
    (total_elapsed_time : ℚ) (props : List Property) (save_folder : String)
    (progress_interval : Nat) (fs0 : List String) :
    Except String (RunStats × LoopState) :=
  let final := finalLoopState fetch elapsedAt save_folder progress_interval fs0 props
  if props.length = 0 then Except.error "ZeroDivisionError"
  else Except.ok (runStatsOf total_elapsed_time props final, final)

/-- C1 (the code): called on an empty property sequence,
`download_images_for_dataset` does not return zeroed statistics — it
raises `ZeroDivisionError` at the unconditional
`(successful_count / total_properties) * 100` on line 172. -/
theorem downloadAll_empty_raises_div_by_zero :
    download_images_for_dataset (fun _ => false) (fun _ => 0) 0 [] "train" 50 []
      = Except.error "ZeroDivisionError" := rfl

/-- How a single row is handled by the loop: skipped because its file
already exists, fetched successfully, or failed. -/
inductive RowOutcome where
  | skipped
  | fetched
  | failedRow
  deriving DecidableEq

/-- A row counted as successful: it was skipped or fetched successfully. -/
def isSuccessOutcome : RowOutcome → Bool
  | .skipped => true
  | .fetched => true
  | .failedRow => false

/-- A row on which the Fetcher was actually called (and a delay applied). -/
def isAttempt : RowOutcome → Bool
  | .skipped => false
  | .fetched => true
  | .failedRow => true

/-- A row whose fetch attempt failed. -/
def isFailure : RowOutcome → Bool
  | .skipped => false
  | .fetched => false
  | .failedRow => true

/-- The outcome of each row, in input order, given the files initially
present: a row is skipped when its destination path already exists
(including paths written by earlier successful fetches of this same run),
fetched when the Fetcher succeeds, and failed otherwise. -/
def rowOutcomes (fetch : Property → Bool) (folder : String) :
    List String → List Property → List RowOutcome
  | _, [] => []
  | fs, p :: rest =>
      let path := downloaderDestPath folder p.id
      if fs.contains path then RowOutcome.skipped :: rowOutcomes fetch folder fs rest
      else if fetch p then RowOutcome.fetched :: rowOutcomes fetch folder (path :: fs) rest
      else RowOutcome.failedRow :: rowOutcomes fetch folder fs rest

/-- The set of files present after the loop: each successful fetch adds
its destination path. -/
def fsAfter (fetch : Property → Bool) (folder : String) :
    List String → List Property → List String
  | fs, [] => fs
  | fs, p :: rest =>
      let path := downloaderDestPath folder p.id
      if fs.contains path then fsAfter fetch folder fs rest
      else if fetch p then fsAfter fetch folder (path :: fs) rest
      else fsAfter fetch folder fs rest

/-- The identifiers of the failed rows, in input order. -/
def failedIdsSpec (fetch : Property → Bool) (folder : String) :
    List String → List Property → List String
  | _, [] => []
  | fs, p :: rest =>
      let path := downloaderDestPath folder p.id
      if fs.contains path then failedIdsSpec fetch folder fs rest
      else if fetch p then failedIdsSpec fetch folder (path :: fs) rest
      else p.id :: failedIdsSpec fetch folder fs rest

/-- The progress observations the loop emits, derived from the row
outcomes: a non-skipped row at 0-based index `i` emits an observation
when `(i + 1) % interval = 0`; a skipped row emits nothing (the
`continue` bypasses the progress block). -/
def expectedProgress (elapsedAt : Nat → ℚ) (total interval : Nat) :
    Nat → List RowOutcome → List ProgressObs
  | _, [] => []
  | i, RowOutcome.skipped :: rest => expectedProgress elapsedAt total interval (i + 1) rest
  | i, RowOutcome.fetched :: rest =>
      (if (i + 1) % interval = 0 then [mkProgressObs elapsedAt total i] else [])
        ++ expectedProgress elapsedAt total interval (i + 1) rest
  | i, RowOutcome.failedRow :: rest =>
      (if (i + 1) % interval = 0 then [mkProgressObs elapsedAt total i] else [])
        ++ expectedProgress elapsedAt total interval (i + 1) rest

/-- Master characterization of the download loop: every component of the
final loop state is determined by the per-row outcome list. -/
theorem runLoopAux_spec (fetch : Property → Bool) (elapsedAt : Nat → ℚ)
    (folder : String) (total interval : Nat) (props : List Property) :
    ∀ s : LoopState,
    runLoopAux fetch elapsedAt folder total interval s props =
      { fs := fsAfter fetch folder s.fs props
        successful := s.successful
          + (rowOutcomes fetch folder s.fs props).countP isSuccessOutcome
        failed := s.failed + (rowOutcomes fetch folder s.fs props).countP isFailure
        failed_ids := s.failed_ids ++ failedIdsSpec fetch folder s.fs props
        fetchCalls := s.fetchCalls
          + (rowOutcomes fetch folder s.fs props).countP isAttempt
        delays := s.delays + (rowOutcomes fetch folder s.fs props).countP isAttempt
        progress := s.progress
          ++ expectedProgress elapsedAt total interval s.idx
               (rowOutcomes fetch folder s.fs props)
        idx := s.idx + props.length } := by
  induction props with
  | nil =>
    intro s
    simp [runLoopAux, fsAfter, rowOutcomes, failedIdsSpec, expectedProgress]
  | cons p rest ih =>
    intro s
    simp only [runLoopAux]
    rw [ih]
    simp only [processRow]
    by_cases hc : s.fs.contains (downloaderDestPath folder p.id)
    · simp only [hc, if_true, rowOutcomes, fsAfter, failedIdsSpec, expectedProgress,
        List.countP_cons, isSuccessOutcome, isFailure, isAttempt, List.length_cons]
      simp [LoopState.mk.injEq]
      omega
    · by_cases hf : fetch p
      · by_cases hm : (s.idx + 1) % interval = 0
        · simp only [hc, hf, hm, if_true, if_false, Bool.false_eq_true,
            rowOutcomes, fsAfter, failedIdsSpec, expectedProgress,
            List.countP_cons, isSuccessOutcome, isFailure, isAttempt, List.length_cons]
          simp [LoopState.mk.injEq]
          omega
        · simp only [hc, hf, hm, if_true, if_false, Bool.false_eq_true,
            rowOutcomes, fsAfter, failedIdsSpec, expectedProgress,
            List.countP_cons, isSuccessOutcome, isFailure, isAttempt, List.length_cons]
          simp [LoopState.mk.injEq]
          omega
      · by_cases hm : (s.idx + 1) % interval = 0
        · simp only [hc, hf, hm, if_true, if_false, Bool.false_eq_true,
            rowOutcomes, fsAfter, failedIdsSpec, expectedProgress,
            List.countP_cons, isSuccessOutcome, isFailure, isAttempt, List.length_cons]
          simp [LoopState.mk.injEq]
          omega
        · simp only [hc, hf, hm, if_true, if_false, Bool.false_eq_true,
            rowOutcomes, fsAfter, failedIdsSpec, expectedProgress,
            List.countP_cons, isSuccessOutcome, isFailure, isAttempt, List.length_cons]
          simp [LoopState.mk.injEq]
          omega

/-- Every row outcome is counted either as a success or as a failure. -/
theorem countP_success_add_failure (outs : List RowOutcome) :
    outs.countP isSuccessOutcome + outs.countP isFailure = outs.length := by
  induction outs with
  | nil => simp
  | cons o rest ih =>
    cases o <;> simp [List.countP_cons, isSuccessOutcome, isFailure] <;> omega

/-- There is one row outcome per input property. -/
theorem rowOutcomes_length (fetch : Property → Bool) (folder : String)
    (props : List Property) :
    ∀ fs, (rowOutcomes fetch folder fs props).length = props.length := by
  induction props with
  | nil => intro fs; simp [rowOutcomes]
  | cons p rest ih =>
    intro fs
    simp only [rowOutcomes]
    by_cases hc : downloaderDestPath folder p.id ∈ fs <;>
      by_cases hf : fetch p <;> simp [hc, hf, ih]

/-- The failed-id list has one entry per failed row. -/
theorem failedIdsSpec_length (fetch : Property → Bool) (folder : String)
    (props : List Property) :
    ∀ fs, (failedIdsSpec fetch folder fs props).length
      = (rowOutcomes fetch folder fs props).countP isFailure := by
  induction props with
  | nil => intro fs; simp [rowOutcomes, failedIdsSpec]
  | cons p rest ih =>
    intro fs
    simp only [rowOutcomes, failedIdsSpec]
    by_cases hc : downloaderDestPath folder p.id ∈ fs <;>
      by_cases hf : fetch p <;>
        simp [hc, hf, ih, List.countP_cons, isFailure]

/-- C10: whenever `download_images_for_dataset` returns normally, the
returned statistics partition the input rows: `successful + failed =
total`, and `failed` equals the length of the failed-id list. -/
theorem stats_partition_invariant (fetch : Property → Bool) (elapsedAt : Nat → ℚ)
    (t : ℚ) (props : List Property) (folder : String) (interval : Nat)
    (fs0 : List String) (stats : RunStats) (st : LoopState)
    (h : download_images_for_dataset fetch elapsedAt t props folder interval fs0
          = Except.ok (stats, st)) :
    stats.successful + stats.failed = stats.total ∧
    stats.failed = stats.failed_ids.length := by
  by_cases hz : props.length = 0
  · simp [download_images_for_dataset, hz] at h
  · simp only [download_images_for_dataset, hz, if_false, Except.ok.injEq,
      Prod.mk.injEq] at h
    obtain ⟨h1, _⟩ := h
    subst h1
    simp only [runStatsOf, finalLoopState, runLoopAux_spec, initState]
    simp only [Nat.zero_add, List.nil_append]
    refine ⟨?_, ?_⟩
    · have hsum := countP_success_add_failure (rowOutcomes fetch folder fs0 props)
      have hlen := rowOutcomes_length fetch folder props fs0
      omega
    · exact (failedIdsSpec_length fetch folder props fs0).symm

/-- Concrete batch for the failure-accounting example: ids 1..10, the
fetches for ids 2 and 5 forced to fail, starting from an empty folder. -/
def propsW10 : List Property :=
  [{ id := "1", lat := 0, long := 0 }, { id := "2", lat := 0, long := 0 },
   { id := "3", lat := 0, long := 0 }, { id := "4", lat := 0, long := 0 },
   { id := "5", lat := 0, long := 0 }, { id := "6", lat := 0, long := 0 },
   { id := "7", lat := 0, long := 0 }, { id := "8", lat := 0, long := 0 },
   { id := "9", lat := 0, long := 0 }, { id := "10", lat := 0, long := 0 }]

/-- Fetch oracle failing exactly on ids 2 and 5. -/
def fetchW10 : Property → Bool := fun p => !(p.id == "2" || p.id == "5")

/-- Final loop state of the example batch. -/
def finalW10 : LoopState :=
  finalLoopState fetchW10 (fun _ => 0) "train" 50 [] propsW10

/-- Witness for `stats_partition_invariant` on a concrete failing batch. -/
theorem stats_partition_invariant_witness :
    (runStatsOf 0 propsW10 finalW10).successful
        + (runStatsOf 0 propsW10 finalW10).failed
      = (runStatsOf 0 propsW10 finalW10).total ∧
    (runStatsOf 0 propsW10 finalW10).failed
      = (runStatsOf 0 propsW10 finalW10).failed_ids.length :=
  stats_partition_invariant fetchW10 (fun _ => 0) 0 propsW10 "train" 50 []
    (runStatsOf 0 propsW10 finalW10) finalW10 rfl

/-- C3: whenever `download_images_for_dataset` returns normally, `total`
is the number of input properties, `successful` counts the rows that were
skipped or fetched successfully, `failed` counts the failed fetch
attempts, and `failed_ids` lists exactly the identifiers of the failed
properties in input order. -/
theorem failure_accounting (fetch : Property → Bool) (elapsedAt : Nat → ℚ)
    (t : ℚ) (props : List Property) (folder : String) (interval : Nat)
    (fs0 : List String) (stats : RunStats) (st : LoopState)
    (h : download_images_for_dataset fetch elapsedAt t props folder interval fs0
          = Except.ok (stats, st)) :
    stats.total = props.length ∧
    stats.successful = (rowOutcomes fetch folder fs0 props).countP isSuccessOutcome ∧
    stats.failed = (rowOutcomes fetch folder fs0 props).countP isFailure ∧
    stats.failed_ids = failedIdsSpec fetch folder fs0 props := by
  by_cases hz : props.length = 0
  · simp [download_images_for_dataset, hz] at h
  · simp only [download_images_for_dataset, hz, if_false, Except.ok.injEq,
      Prod.mk.injEq] at h
    obtain ⟨h1, _⟩ := h
    subst h1
    simp only [runStatsOf, finalLoopState, runLoopAux_spec, initState]
    simp

/-- Witness for `failure_accounting`: on the batch with ids 1..10 and the
fetches for ids 2 and 5 failing, the statistics are `total = 10`,
`successful = 8`, `failed = 2`, `failed_ids = ["2", "5"]`. -/
theorem failure_accounting_witness :
    ((runStatsOf 0 propsW10 finalW10).total = propsW10.length ∧
     (runStatsOf 0 propsW10 finalW10).successful
       = (rowOutcomes fetchW10 "train" [] propsW10).countP isSuccessOutcome ∧
     (runStatsOf 0 propsW10 finalW10).failed
       = (rowOutcomes fetchW10 "train" [] propsW10).countP isFailure ∧
     (runStatsOf 0 propsW10 finalW10).failed_ids
       = failedIdsSpec fetchW10 "train" [] propsW10) ∧
    (runStatsOf 0 propsW10 finalW10).total = 10 ∧
    (runStatsOf 0 propsW10 finalW10).successful = 8 ∧
    (runStatsOf 0 propsW10 finalW10).failed = 2 ∧
    (runStatsOf 0 propsW10 finalW10).failed_ids = ["2", "5"] :=
  ⟨failure_accounting fetchW10 (fun _ => 0) 0 propsW10 "train" 50 []
      (runStatsOf 0 propsW10 finalW10) finalW10 rfl,
   by decide, by decide, by decide, by decide⟩

/-- When every destination path already exists, every row is skipped. -/
theorem rowOutcomes_all_skipped (fetch : Property → Bool) (folder : String)
    (props : List Property) (fs : List String)
    (hall : ∀ p ∈ props, downloaderDestPath folder p.id ∈ fs) :
    rowOutcomes fetch folder fs props
      = List.replicate props.length RowOutcome.skipped := by
  induction props with
  | nil => simp [rowOutcomes]
  | cons p rest ih =>
    have hp : downloaderDestPath folder p.id ∈ fs := hall p (by simp)
    simp only [rowOutcomes]
    simp [hp, List.replicate_succ,
      ih fun q hq => hall q (List.mem_cons_of_mem p hq)]

/-- When every destination path already exists, no row fails. -/
theorem failedIdsSpec_all_skipped (fetch : Property → Bool) (folder : String)
    (props : List Property) (fs : List String)
    (hall : ∀ p ∈ props, downloaderDestPath folder p.id ∈ fs) :
    failedIdsSpec fetch folder fs props = [] := by
  induction props with
  | nil => simp [failedIdsSpec]
  | cons p rest ih =>
    have hp : downloaderDestPath folder p.id ∈ fs := hall p (by simp)
    simp only [failedIdsSpec]
    simp [hp, ih fun q hq => hall q (List.mem_cons_of_mem p hq)]

/-- Counting over a run in which every row was skipped. -/
theorem countP_replicate_skipped (n : Nat) (f : RowOutcome → Bool) :
    (List.replicate n RowOutcome.skipped).countP f
      = if f RowOutcome.skipped then n else 0 := by
  induction n with
  | zero => simp
  | succ n ih =>
    by_cases hf : f RowOutcome.skipped <;>
      simp [List.replicate_succ, List.countP_cons, hf, ih]

/-- C2: if a file already exists at the destination path of every
property, a rerun of the batch over the same folder — with every
underlying fetch stubbed to fail — never calls the Fetcher and never
applies the inter-request delay, and whatever statistics it returns
report all properties as successful: `successful = total`, `failed = 0`,
and an empty failed-id list. -/
theorem idempotent_skip_all_successful (elapsedAt : Nat → ℚ) (t : ℚ)
    (props : List Property) (folder : String) (interval : Nat)
    (fs0 : List String)
    (hall : ∀ p ∈ props, downloaderDestPath folder p.id ∈ fs0) :
    (finalLoopState (fun _ => false) elapsedAt folder interval fs0 props).fetchCalls = 0 ∧
    (finalLoopState (fun _ => false) elapsedAt folder interval fs0 props).delays = 0 ∧
    ∀ stats st,
      download_images_for_dataset (fun _ => false) elapsedAt t props folder interval fs0
          = Except.ok (stats, st) →
        stats.successful = stats.total ∧ stats.failed = 0 ∧ stats.failed_ids = [] := by
  have hout := rowOutcomes_all_skipped (fun _ => false) folder props fs0 hall
  have hids := failedIdsSpec_all_skipped (fun _ => false) folder props fs0 hall
  refine ⟨?_, ?_, ?_⟩
  · simp [finalLoopState, runLoopAux_spec, initState, hout,
      countP_replicate_skipped, isAttempt]
  · simp [finalLoopState, runLoopAux_spec, initState, hout,
      countP_replicate_skipped, isAttempt]
  · intro stats st h
    by_cases hz : props.length = 0
    · simp [download_images_for_dataset, hz] at h
    · simp only [download_images_for_dataset, hz, if_false, Except.ok.injEq,
        Prod.mk.injEq] at h
      obtain ⟨h1, _⟩ := h
      subst h1
      simp [runStatsOf, finalLoopState, runLoopAux_spec, initState, hout, hids,
        countP_replicate_skipped, isSuccessOutcome, isFailure]

/-- Concrete rerun input: two properties whose image files are both
already present in the output folder. -/
def propsW2 : List Property :=
  [{ id := "1", lat := 0, long := 0 }, { id := "2", lat := 0, long := 0 }]

/-- The folder contents left by a first fully successful run over
`propsW2`. -/
def fsW2 : List String := ["d/property_1.jpg", "d/property_2.jpg"]

/-- Final loop state of the rerun with all fetches stubbed to fail. -/
def finalW2 : LoopState :=
  finalLoopState (fun _ => false) (fun _ => 0) "d" 50 fsW2 propsW2

/-- Witness for `idempotent_skip_all_successful` on a concrete rerun. -/
theorem idempotent_skip_all_successful_witness :
    (finalW2.fetchCalls = 0 ∧ finalW2.delays = 0) ∧
    ((runStatsOf 0 propsW2 finalW2).successful = (runStatsOf 0 propsW2 finalW2).total ∧
     (runStatsOf 0 propsW2 finalW2).failed = 0 ∧
     (runStatsOf 0 propsW2 finalW2).failed_ids = []) :=
  ⟨⟨(idempotent_skip_all_successful (fun _ => 0) 0 propsW2 "d" 50 fsW2 (by decide)).1,
    (idempotent_skip_all_successful (fun _ => 0) 0 propsW2 "d" 50 fsW2 (by decide)).2.1⟩,
   (idempotent_skip_all_successful (fun _ => 0) 0 propsW2 "d" 50 fsW2 (by decide)).2.2
     (runStatsOf 0 propsW2 finalW2) finalW2 rfl⟩

/-- The C5 claim as stated: after every `interval` processed rows —
counting skipped rows too — some progress observation with that
rows-processed count is emitted. -/
def claimProgressEvery (emissions : List ProgressObs) (total interval : Nat) : Prop :=
  ∀ k, 1 ≤ k → k * interval ≤ total →
    ∃ obs ∈ emissions, obs.rowsProcessed = k * interval

/-- C5 counterexample: with `progress_interval = 1` and a single property
whose file already exists, one row is processed (a skip), so the claim
requires a progress observation after row 1 — but the `continue` taken on
a skipped row bypasses the progress block, and no observation is emitted. -/
theorem progress_skip_milestone_counterexample :
    ¬ claimProgressEvery
        (finalLoopState (fun _ => true) (fun _ => 0) "train" 1
          ["train/property_1.jpg"] [{ id := "1", lat := 0, long := 0 }]).progress
        1 1 := by
  intro h
  obtain ⟨obs, hmem, _⟩ := h 1 (Nat.le_refl 1) (by decide)
  have hp : (finalLoopState (fun _ => true) (fun _ => 0) "train" 1
      ["train/property_1.jpg"] [{ id := "1", lat := 0, long := 0 }]).progress
      = [] := by decide
  rw [hp] at hmem
  exact (List.not_mem_nil obs) hmem

/-- C5 amended: a progress observation is emitted after a row exactly
when that row was not skipped and its 1-based position is a multiple of
`progress_interval`; each observation carries the rows processed, the
total row count, the percentage complete, the elapsed time and the
estimated remaining time `(elapsed / rows processed) * rows remaining`
(see `mkProgressObs`); and the emissions are observational only — the
folder contents, all counters and the failed-id list are identical for
any progress interval and any elapsed-time oracle. -/
theorem progress_emission_characterization (fetch : Property → Bool)
    (e1 e2 : Nat → ℚ) (folder : String) (i1 i2 : Nat) (fs0 : List String)
    (props : List Property) :
    (finalLoopState fetch e1 folder i1 fs0 props).progress
      = expectedProgress e1 props.length i1 0 (rowOutcomes fetch folder fs0 props) ∧
    (finalLoopState fetch e1 folder i1 fs0 props).successful
      = (finalLoopState fetch e2 folder i2 fs0 props).successful ∧
    (finalLoopState fetch e1 folder i1 fs0 props).failed
      = (finalLoopState fetch e2 folder i2 fs0 props).failed ∧
    (finalLoopState fetch e1 folder i1 fs0 props).failed_ids
      = (finalLoopState fetch e2 folder i2 fs0 props).failed_ids ∧
    (finalLoopState fetch e1 folder i1 fs0 props).fs
      = (finalLoopState fetch e2 folder i2 fs0 props).fs ∧
    (finalLoopState fetch e1 folder i1 fs0 props).fetchCalls
      = (finalLoopState fetch e2 folder i2 fs0 props).fetchCalls ∧
    (finalLoopState fetch e1 folder i1 fs0 props).delays
      = (finalLoopState fetch e2 folder i2 fs0 props).delays := by
  simp [finalLoopState, runLoopAux_spec, initState]

/-- The verification report returned by `verify_images`
(`data_fetcher.py` lines 286-290). -/
structure VerificationReport where
  total_checked : Nat
  valid_images : Nat
  corrupted_images : Nat
  deriving DecidableEq

/-- Embedding of `SatelliteImageFetcher.verify_images`
(`data_fetcher.py` lines 240-290).  The folder is its directory listing:
a list of (filename, decodes-as-a-valid-image) pairs, the boolean being
the outcome of `Image.open(path); img.verify()` for that file.  The code
keeps the files whose name ends in `.jpg`, returns all-zero counts when
there are none, clamps the sample size to the number of such files, and
classifies each file of the sample as valid or corrupted. -/
def verify_images (folder : List (String × Bool)) (sample_size : Nat) :
    VerificationReport :=
  let image_files := folder.filter (fun f => strEndsWith f.1 ".jpg")
  if image_files.length = 0 then
    { total_checked := 0, valid_images := 0, corrupted_images := 0 }
  else
    let n := min sample_size image_files.length
    let sample := image_files.take n
    { total_checked := n
      valid_images := (sample.filter (fun f => f.2)).length
      corrupted_images := (sample.filter (fun f => !f.2)).length }

/-- Splitting a list by a boolean predicate preserves its length. -/
theorem length_filter_add_length_filter_not {β : Type} (l : List β) (q : β → Bool) :
    (l.filter q).length + (l.filter (fun x => !q x)).length = l.length := by
  induction l with
  | nil => simp
  | cons a t ih => cases h : q a <;> simp [List.filter_cons, h] <;> omega

/-- C8: `verify_images` clamps the sample size to the number of files
with the expected `.jpg` extension — `total_checked = min sample_size
count` — classifies every checked file as exactly one of valid or
corrupted, checks no file twice (the checked names are distinct whenever
the directory listing is), and returns all-zero counts on a folder with
no matching files. -/
theorem verify_sample_clamped (folder : List (String × Bool)) (sample_size : Nat)
    (hnd : (folder.map Prod.fst).Nodup) :
    (verify_images folder sample_size).total_checked
      = min sample_size (folder.filter (fun f => strEndsWith f.1 ".jpg")).length ∧
    (verify_images folder sample_size).valid_images
        + (verify_images folder sample_size).corrupted_images
      = (verify_images folder sample_size).total_checked ∧
    (((folder.filter (fun f => strEndsWith f.1 ".jpg")).take
        (min sample_size
          (folder.filter (fun f => strEndsWith f.1 ".jpg")).length)).map
        Prod.fst).Nodup ∧
    (folder.filter (fun f => strEndsWith f.1 ".jpg") = [] →
      verify_images folder sample_size
        = { total_checked := 0, valid_images := 0, corrupted_images := 0 }) := by
  refine ⟨?_, ?_, ?_, ?_⟩
  · by_cases hz : (folder.filter (fun f => strEndsWith f.1 ".jpg")).length = 0
    · simp [verify_images, hz]
    · simp [verify_images, hz]
  · by_cases hz : (folder.filter (fun f => strEndsWith f.1 ".jpg")).length = 0
    · simp [verify_images, hz]
    · simp only [verify_images, hz, if_false]
      rw [length_filter_add_length_filter_not]
      rw [List.length_take]
      omega
  · have hsub :
        List.Sublist
          (((folder.filter (fun f => strEndsWith f.1 ".jpg")).take
            (min sample_size
              (folder.filter (fun f => strEndsWith f.1 ".jpg")).length)).map Prod.fst)
          (folder.map Prod.fst) :=
      List.Sublist.map Prod.fst
        ((List.take_sublist _ _).trans (List.filter_sublist _))
    exact List.Nodup.sublist hsub hnd
  · intro he
    simp [verify_images, he]

/-- A directory listing of seven valid JPEG files. -/
def folderW7 : List (String × Bool) :=
  [("property_1.jpg", true), ("property_2.jpg", true), ("property_3.jpg", true),
   ("property_4.jpg", true), ("property_5.jpg", true), ("property_6.jpg", true),
   ("property_7.jpg", true)]

/-- Witness for `verify_sample_clamped`: asking for 1000 samples from a
folder of 7 valid images checks exactly 7, all valid, none corrupted. -/
theorem verify_sample_clamped_witness :
    ((verify_images folderW7 1000).total_checked
       = min 1000 (folderW7.filter (fun f => strEndsWith f.1 ".jpg")).length ∧
     (verify_images folderW7 1000).valid_images
         + (verify_images folderW7 1000).corrupted_images
       = (verify_images folderW7 1000).total_checked ∧
     (((folderW7.filter (fun f => strEndsWith f.1 ".jpg")).take
        (min 1000
          (folderW7.filter (fun f => strEndsWith f.1 ".jpg")).length)).map
        Prod.fst).Nodup ∧
     (folderW7.filter (fun f => strEndsWith f.1 ".jpg") = [] →
       verify_images folderW7 1000
         = { total_checked := 0, valid_images := 0, corrupted_images := 0 })) ∧
    verify_images folderW7 1000
      = { total_checked := 7, valid_images := 7, corrupted_images := 0 } :=
  ⟨verify_sample_clamped folderW7 1000 (by decide), by decide⟩

/-- One row of the mapping manifest built by `create_image_mapping`
(`data_fetcher.py` lines 214-224): the `id`, `lat`, `long` columns copied
from the property table, plus `image_path` and `image_exists`. -/
structure MappingRow where
  id : String
  lat : Int
  long : Int
  image_path : String
  image_exists : Bool
  deriving DecidableEq

/-- The manifest rows: one per input property, in input order, with
`image_path` computed by the deterministic naming function and
`image_exists` the existence check against the folder contents. -/
def mappingRows (props : List Property) (images_folder : String)
    (fsPaths : List String) : List MappingRow :=
  props.map fun p =>
    { id := p.id, lat := p.lat, long := p.long
      image_path := mappingImagePath images_folder p.id
      image_exists := fsPaths.contains (mappingImagePath images_folder p.id) }

/-- The CSV header written by `mapping_df.to_csv(output_csv_path,
index=False)`: the five columns in their stable order, no index column. -/
def mappingCsvHeader : String := "id,lat,long,image_path,image_exists"

/-- How pandas serializes a boolean cell. -/
def boolCell : Bool → String
  | true => "True"
  | false => "False"

/-- One serialized manifest row: the five cells in column order,
comma-delimited, with no leading index cell. -/
def mappingRowCsvLine (r : MappingRow) : String :=
  r.id ++ "," ++ toString r.lat ++ "," ++ toString r.long ++ ","
    ++ r.image_path ++ "," ++ boolCell r.image_exists

/-- The serialized manifest: header line then one line per row. -/
def mappingCsv (rows : List MappingRow) : String :=
  String.intercalate "\x0A" (mappingCsvHeader :: rows.map mappingRowCsvLine)

/-- A text-file store: association of paths to file contents. -/
def TextFS : Type := List (String × String)

/-- Writing a text file: fully overwrites any existing file at the path. -/
def writeTextFile (files : TextFS) (path content : String) : TextFS :=
  (path, content) :: files.filter (fun e => !(e.1 == path))

/-- Reading a text file. -/
def readTextFile (files : TextFS) (path : String) : Option String :=
  (List.find? (fun e => e.1 == path) files).map (fun e => e.2)

/-- Embedding of `SatelliteImageFetcher.create_image_mapping`
(`data_fetcher.py` lines 196-237): builds the manifest rows from the
property table and the current folder contents, writes the CSV to
`output_csv_path`, and returns the manifest. -/
def create_image_mapping (props : List Property) (images_folder : String)
    (fsPaths : List String) (output_csv_path : String) (files : TextFS) :
    List MappingRow × TextFS :=
  let rows := mappingRows props images_folder fsPaths
  (rows, writeTextFile files output_csv_path (mappingCsv rows))

/-- Reading back the path just written yields exactly the new content. -/
theorem readTextFile_writeTextFile_same (files : TextFS) (pth c : String) :
    readTextFile (writeTextFile files pth c) pth = some c := by
  simp [readTextFile, writeTextFile]

/-- Filtering out the overwritten path does not change lookups of other
paths. -/
theorem find_filter_ne (t : TextFS) (pth q : String) (hq : q ≠ pth) :
    List.find? (fun e => e.1 == q) (t.filter (fun e => !(e.1 == pth)))
      = List.find? (fun e => e.1 == q) t := by
  induction t with
  | nil => rfl
  | cons a t ih =>
    by_cases ha : a.1 = pth
    · have h1 : (a.1 == pth) = true := by simp [ha]
      have h2 : (a.1 == q) = false := by
        have hne : a.1 ≠ q := fun hcontra => hq (hcontra.symm.trans ha)
        simp [hne]
      simp [List.filter_cons, h1, List.find?_cons, h2, ih]
    · have h1 : (a.1 == pth) = false := by simp [ha]
      by_cases hqa : a.1 = q
      · have h2 : (a.1 == q) = true := by simp [hqa]
        simp [List.filter_cons, h1, List.find?_cons, h2]
      · have h2 : (a.1 == q) = false := by simp [hqa]
        simp [List.filter_cons, h1, List.find?_cons, h2, ih]

/-- Writing one path leaves every other path's content unchanged. -/
theorem readTextFile_writeTextFile_other (files : TextFS) (pth c q : String)
    (hq : q ≠ pth) :
    readTextFile (writeTextFile files pth c) q = readTextFile files q := by
  simp only [readTextFile, writeTextFile]
  rw [List.find?_cons_of_neg, find_filter_ne files pth q hq]
  simp [Ne.symm hq]

/-- C9: `create_image_mapping` produces one manifest row per input
property (no index column), each row carrying the property's id, lat,
long, its deterministically named image path, and its existence flag;
the serialized file at `output_csv_path` starts with the fixed header
`id,lat,long,image_path,image_exists` followed by one comma-delimited
line per row in column order; and each call fully overwrites the output
file while leaving every other file unchanged. -/
theorem image_mapping_csv_format (props : List Property) (images_folder : String)
    (fsPaths : List String) (output_csv_path : String) (files : TextFS) :
    ((create_image_mapping props images_folder fsPaths output_csv_path files).1).length
      = props.length ∧
    mappingCsvHeader = "id,lat,long,image_path,image_exists" ∧
    (∀ i : Nat,
      ((create_image_mapping props images_folder fsPaths output_csv_path files).1)[i]?
        = (props[i]?).map (fun p =>
            { id := p.id, lat := p.lat, long := p.long
              image_path := mappingImagePath images_folder p.id
              image_exists :=
                fsPaths.contains (mappingImagePath images_folder p.id) })) ∧
    (∀ r : MappingRow, mappingRowCsvLine r
        = r.id ++ "," ++ toString r.lat ++ "," ++ toString r.long ++ ","
            ++ r.image_path ++ "," ++ boolCell r.image_exists) ∧
    readTextFile ((create_image_mapping props images_folder fsPaths output_csv_path files).2)
        output_csv_path
      = some (String.intercalate "\x0A" (mappingCsvHeader ::
          ((create_image_mapping props images_folder fsPaths output_csv_path files).1).map
            mappingRowCsvLine)) ∧
    (∀ q, q ≠ output_csv_path →
      readTextFile
          ((create_image_mapping props images_folder fsPaths output_csv_path files).2) q
        = readTextFile files q) := by
  refine ⟨?_, rfl, ?_, fun r => rfl, ?_, ?_⟩
  · simp [create_image_mapping, mappingRows]
  · intro i
    simp [create_image_mapping, mappingRows]
  · exact readTextFile_writeTextFile_same files output_csv_path _
  · intro q hq
    exact readTextFile_writeTextFile_other files output_csv_path _ q hq

/-- Concrete mapping input: two properties, one downloaded image, an
output file with stale content, and an unrelated file. -/
def propsW3 : List Property :=
  [{ id := "1", lat := 10, long := 20 }, { id := "2", lat := 30, long := 40 }]

/-- Folder contents at mapping time: only property 1 was downloaded. -/
def pathsW3 : List String := ["imgs/property_1.jpg"]

/-- Pre-existing files: a stale manifest and an unrelated file. -/
def filesW3 : TextFS := [("map.csv", "stale"), ("other.txt", "keep")]

/-- Witness for `image_mapping_csv_format` on a concrete mapping call. -/
theorem image_mapping_csv_format_witness :
    readTextFile ((create_image_mapping propsW3 "imgs" pathsW3 "map.csv" filesW3).2)
        "map.csv"
      = some (String.intercalate "\x0A" (mappingCsvHeader ::
          ((create_image_mapping propsW3 "imgs" pathsW3 "map.csv" filesW3).1).map
            mappingRowCsvLine)) ∧
    readTextFile ((create_image_mapping propsW3 "imgs" pathsW3 "map.csv" filesW3).2)
        "other.txt"
      = readTextFile filesW3 "other.txt" ∧
    ((create_image_mapping propsW3 "imgs" pathsW3 "map.csv" filesW3).1).length
      = propsW3.length :=
  ⟨(image_mapping_csv_format propsW3 "imgs" pathsW3 "map.csv" filesW3).2.2.2.2.1,
   (image_mapping_csv_format propsW3 "imgs" pathsW3 "map.csv" filesW3).2.2.2.2.2
     "other.txt" (by decide),
   (image_mapping_csv_format propsW3 "imgs" pathsW3 "map.csv" filesW3).1⟩

end DataFetcher
